import Mathlib

/-!
Shallow embedding of the centralized logging and tracing core of the
repository (shared_logging.py, backend/middleware/request_id.py,
backend/main.py, logs/ai_debug_summary.py, logs/view_logs.py), together
with theorems settling the spec claims about it.

Conventions of the embedding:
* Python strings are Lean `String`; Python string comparison `<` is the
  lexicographic order on code points, which coincides with `String.lt`.
* Python `None` / absent optional values are `Option`.
* A line of the JSON log file is modelled as `Option Entry`: `some e` when
  `json.loads` succeeds and yields the record `e`, `none` for a malformed
  (unparseable) line.
* Wall-clock readings (span durations) enter the model as explicit
  parameters, since real time is outside a shallow embedding.
-/

/-- Python truthiness of an optional string argument: `None` and the empty
string are falsy (`if level and ...`). -/
def pyTruthy (o : Option String) : Bool :=
  match o with
  | none => false
  | some s => !(s == "")

/-- Python `str.upper()` (ASCII range, which covers every level/module tag
the code compares). -/
def pyUpper (s : String) : String := ⟨s.data.map Char.toUpper⟩

/-- Python `str.lower()` (ASCII range). -/
def pyLower (s : String) : String := ⟨s.data.map Char.toLower⟩

/-- `l₁` is a literal prefix of `l₂` (character lists). -/
def listIsPrefix : List Char → List Char → Bool
  | [], _ => true
  | _ :: _, [] => false
  | a :: as, b :: bs => if a = b then listIsPrefix as bs else false

/-- Python `s.startswith(p)`. -/
def pyStartsWith (s p : String) : Bool := listIsPrefix p.data s.data

/-- `needle` occurs contiguously inside the second list. -/
def listContains (needle : List Char) : List Char → Bool
  | [] => listIsPrefix needle []
  | h :: t => if listIsPrefix needle (h :: t) then true else listContains needle t

/-- Python substring test `needle in hay`. -/
def pyContains (hay needle : String) : Bool := listContains needle.data hay.data

/-- Lexicographic comparison of character lists by code point: the first
differing position decides, else the shorter list is smaller. -/
def pyListLt : List Char → List Char → Bool
  | [], [] => false
  | [], _ :: _ => true
  | _ :: _, [] => false
  | a :: as, b :: bs => if a = b then pyListLt as bs else Nat.blt a.toNat b.toNat

/-- Python string comparison `a < b` (lexicographic by code point; for the
ISO-8601 UTC timestamps the code compares, this is chronological order). -/
def pyStrLt (a b : String) : Bool := pyListLt a.data b.data

/-- Python character-count slicing `s[:n]`. -/
def pyTake (s : String) (n : Nat) : String := ⟨s.data.take n⟩

/-- Python `a[-k:]` for a non-negative `k`: the last `k` elements, except
that `a[-0:]` is the whole list (since `-0 == 0`). -/
def pyTail (k : Nat) (l : List α) : List α :=
  if k = 0 then l else l.drop (l.length - k)

/- ----------------------------------------------------------------------
backend/middleware/request_id.py
---------------------------------------------------------------------- -/

/-- `get_request_id`: `return _request_id_context.get() or "no-request-id"`.
The context variable state is the explicit argument (`none` = unset, the
declared default); Python `or` also replaces a falsy (empty) bound value. -/
def get_request_id (ctx : Option String) : String :=
  match ctx with
  | none => "no-request-id"
  | some s => if s = "" then "no-request-id" else s

/-- `RequestIDFilter.filter` (shared_logging.py): stamps
`record.request_id` with `get_request_id()`; only if reaching the
middleware raises (the `from backend.middleware...` line or the call
fails) does it fall back to the placeholder `"----"`. `importOk` models
whether the middleware accessor is reachable in the running process. -/
def requestIDFilterStamp (importOk : Bool) (ctx : Option String) : String :=
  if importOk then get_request_id ctx else "----"

/- ----------------------------------------------------------------------
shared_logging.py : setup_centralized_logging
---------------------------------------------------------------------- -/

/-- One handler attached to the root logger, by kind and minimum level. -/
structure HandlerCfg where
  kind : String
  level : Nat
  deriving DecidableEq, Repr

/-- The process-wide logging state touched by `setup_centralized_logging`:
the `_initialized` flag, the root logger level, and the root logger's
handler list. -/
structure LoggingState where
  initialized : Bool
  rootLevel : Nat
  handlers : List HandlerCfg
  deriving DecidableEq, Repr

/-- Fresh process state: `_initialized = False`, no handlers. -/
def initialLoggingState : LoggingState :=
  { initialized := false, rootLevel := 30, handlers := [] }

/-- The level names defined by Python's `logging` module, for
`getattr(logging, log_level.upper(), logging.INFO)`. -/
def logLevelTable : List (String × Nat) :=
  [("CRITICAL", 50), ("FATAL", 50), ("ERROR", 40), ("WARNING", 30),
   ("WARN", 30), ("INFO", 20), ("DEBUG", 10), ("NOTSET", 0)]

/-- `getattr(logging, log_level.upper(), logging.INFO)`. -/
def numericLevel (log_level : String) : Nat :=
  (logLevelTable.lookup (pyUpper log_level)).getD 20

/-- `setup_centralized_logging(log_level, console_output)`: returns at once
if `_initialized` is set; otherwise clears the root handlers and installs
the console handler (optional), the two timed-rotating file handlers and
the JSON-lines handler, then sets `_initialized`. -/
def setup_centralized_logging (s : LoggingState)
    (log_level : String) (console_output : Bool) : LoggingState :=
  if s.initialized then s
  else
    { initialized := true
      rootLevel := numericLevel log_level
      handlers :=
        (if console_output then [⟨"console", numericLevel log_level⟩] else [])
          ++ [⟨"main_file", 20⟩, ⟨"error_file", 40⟩, ⟨"json", 20⟩] }

/- ----------------------------------------------------------------------
shared_logging.py : log_span
---------------------------------------------------------------------- -/

/-- A Python exception value as the tracer observes it: `type(e).__name__`
and `str(e)`. -/
structure PyExc where
  ty : String
  msg : String
  deriving DecidableEq, Repr

/-- One structured record emitted by the span tracer: the log level, the
formatted message and the `extra` fields the code attaches
(`span_id`, `span_op`, `duration_ms`, `log_context`). -/
structure SpanRecord where
  level : String
  msg : String
  span_id : String
  span_op : String
  duration_ms : Option Nat
  log_context : Option (List (String × String))
  deriving DecidableEq, Repr

/-- `json.dumps` of a flat string-valued context map (the serialized form
only ever appears opaquely inside messages). -/
def dumpsPairs (ctx : List (String × String)) : String :=
  "\x7b" ++ String.intercalate ", "
    (ctx.map (fun p => "\"" ++ p.1 ++ "\": \"" ++ p.2 ++ "\"")) ++ "\x7d"

/-- Python dict assignment `d[k] = v` on an association list with unique
keys (keyword-argument dicts): replaces the value in place if the key is
bound, else appends the binding at the end — so
`\x7b**ctx, "error": m, "error_type": t\x7d` is two successive
assignments. -/
def pyDictSet : List (String × String) → String → String → List (String × String)
  | [], k, v => [(k, v)]
  | (k', v') :: rest, k, v =>
    if k' = k then (k, v) :: rest else (k', v') :: pyDictSet rest k v

/-- `log_span(operation, **context)` around a body that either returns or
raises. `span_id` (the fresh random token) and `duration_ms` (the elapsed
wall-clock milliseconds) are explicit inputs. Returns the emitted records
in order together with the propagated outcome. -/
def log_span (operation span_id : String) (duration_ms : Nat)
    (context : List (String × String)) (body : Except PyExc Unit) :
    List SpanRecord × Except PyExc Unit :=
  let startRec : SpanRecord :=
    { level := "INFO"
      msg := "SPAN_START:" ++ operation ++ " | context=" ++ dumpsPairs context
      span_id := span_id
      span_op := operation
      duration_ms := none
      log_context := if context = [] then none else some context }
  match body with
  | Except.error e =>
    let errRec : SpanRecord :=
      { level := "ERROR"
        msg := "SPAN_ERROR:" ++ operation ++ " | duration=" ++ toString duration_ms
                ++ "ms | error=" ++ e.msg
        span_id := span_id
        span_op := operation
        duration_ms := some duration_ms
        log_context :=
          some (pyDictSet (pyDictSet context "error" e.msg) "error_type" e.ty) }
    ([startRec, errRec], Except.error e)
  | Except.ok _ =>
    let endRec : SpanRecord :=
      { level := "INFO"
        msg := "SPAN_END:" ++ operation ++ " | duration=" ++ toString duration_ms ++ "ms"
        span_id := span_id
        span_op := operation
        duration_ms := some duration_ms
        log_context := if context = [] then none else some context }
    ([startRec, endRec], Except.ok ())

/-- A record is a `SPAN_START` record when its message carries that tag. -/
def isSpanStart (r : SpanRecord) : Bool := pyStartsWith r.msg "SPAN_START:"

/-- A record is a `SPAN_END` record when its message carries that tag. -/
def isSpanEnd (r : SpanRecord) : Bool := pyStartsWith r.msg "SPAN_END:"

/-- A record is a `SPAN_ERROR` record when its message carries that tag. -/
def isSpanError (r : SpanRecord) : Bool := pyStartsWith r.msg "SPAN_ERROR:"


/- ----------------------------------------------------------------------
backend/main.py : get_debug_logs (queryLogs)
---------------------------------------------------------------------- -/

/-- A parsed JSON log record, with the fields the query endpoint and the
summaries read (absent JSON keys behave as the defaults `entry.get`
supplies, so the string fields are total here). -/
structure Entry where
  ts : String
  level : String
  request_id : String
  module : String
  msg : String
  span_op : Option String
  duration_ms : Option Nat
  exception : Option String
  deriving DecidableEq, Repr

/-- The query parameters of `/api/debug/logs`. `cutoff` is the
`cutoff_time` string computed from `since_minutes` (absent when
`since_minutes` is not supplied). -/
structure LogQuery where
  last : Nat
  level : Option String
  request_id : Option String
  module : Option String
  search : Option String
  cutoff : Option String
  deriving Repr

/-- The filter block of the loop body: an entry is kept when none of the
five `continue` conditions fires (Python truthiness guards each filter). -/
def passesFilters (q : LogQuery) (e : Entry) : Bool :=
  (if pyTruthy q.cutoff then !(pyStrLt e.ts (q.cutoff.getD "")) else true)
    && (if pyTruthy q.level then pyUpper e.level == pyUpper (q.level.getD "") else true)
    && (if pyTruthy q.request_id then pyContains e.request_id (q.request_id.getD "") else true)
    && (if pyTruthy q.module then pyUpper e.module == pyUpper (q.module.getD "") else true)
    && (if pyTruthy q.search then pyContains (pyLower e.msg) (pyLower (q.search.getD "")) else true)

/-- The collection loop of `get_debug_logs`: walk the (already reversed)
line list, stop as soon as `last` records are collected, skip malformed
lines, append entries passing every filter. -/
def collectLogs (q : LogQuery) : List (Option Entry) → List Entry → List Entry
  | [], logs => logs
  | line :: rest, logs =>
    if logs.length ≥ q.last then logs
    else
      match line with
      | none => collectLogs q rest logs
      | some e =>
        if passesFilters q e then collectLogs q rest (logs ++ [e])
        else collectLogs q rest logs

/-- `get_debug_logs`: process the file's lines newest-to-oldest, then
reverse the collected records back to chronological order. -/
def get_debug_logs (q : LogQuery) (fileLines : List (Option Entry)) : List Entry :=
  (collectLogs q fileLines.reverse []).reverse

/- ----------------------------------------------------------------------
backend/main.py : _generate_log_summary
---------------------------------------------------------------------- -/

/-- One element of the summary's `errors` list. -/
structure ErrRec where
  ts : String
  msg : String
  module : String
  request_id : String
  exception : Option String
  deriving DecidableEq, Repr

/-- The error entry `_generate_log_summary` builds for an ERROR record
(message truncated to 200 characters). -/
def errorRecOf (l : Entry) : ErrRec :=
  { ts := l.ts, msg := pyTake l.msg 200, module := l.module
    request_id := l.request_id, exception := l.exception }

/-- The fields of `_generate_log_summary`'s result that the claims
address: the ERROR records are gathered in list (chronological input)
order and `recent_errors` is `errors[:5]`. The level/module histograms and
the slow-operation ranking are not modelled. -/
structure MainLogSummary where
  total_entries : Nat
  error_count : Nat
  recent_errors : List ErrRec
  deriving DecidableEq, Repr

/-- `_generate_log_summary(logs)` (the modelled fields). -/
def generate_log_summary (logs : List Entry) : MainLogSummary :=
  let errors := (logs.filter (fun l => l.level == "ERROR")).map errorRecOf
  { total_entries := logs.length
    error_count := errors.length
    recent_errors := errors.take 5 }

/- ----------------------------------------------------------------------
logs/ai_debug_summary.py : generate_summary
---------------------------------------------------------------------- -/

/-- `analyze_errors(logs)["total_errors"]`: the number of records whose
level equals `ERROR`. -/
def countErrorLogs (logs : List Entry) : Nat :=
  (logs.filter (fun l => l.level == "ERROR")).length

/-- `f"{rate:.1%}"` for the exact rate `num/den`, rendered to one decimal
of a percent (nearest, ties upward). On every window where the rate is
exact in tenths of a percent — such as 12 errors in 100 records — this
agrees with the source's float formatting. -/
def formatPercent1 (num den : Nat) : String :=
  let tenths := (num * 2000 / den + 1) / 2
  toString (tenths / 10) ++ "." ++ toString (tenths % 10) ++ "%"

/-- The fields of `generate_summary`'s result the claims address. -/
structure DebugSummary where
  status : String
  error_rate : String
  total_logs : Nat
  deriving DecidableEq, Repr

/-- `generate_summary` over the already-parsed window: the `NO_LOGS`
branch for an empty window, else the health-status chain
`rate > 0.1 → CRITICAL`, `rate > 0.05 → WARNING`, `errors > 0 → DEGRADED`,
else `HEALTHY`, with the error-rate comparisons taken as exact rational
comparisons (`10 * errors > total` for `errors/total > 0.1`, and
`20 * errors > total` for `> 0.05`). -/
def generate_summary (logs : List Entry) : DebugSummary :=
  if logs.isEmpty then
    { status := "NO_LOGS", error_rate := "", total_logs := 0 }
  else
    let totalErrors := countErrorLogs logs
    let status :=
      if 10 * totalErrors > logs.length then "CRITICAL"
      else if 20 * totalErrors > logs.length then "WARNING"
      else if totalErrors > 0 then "DEGRADED"
      else "HEALTHY"
    { status := status
      error_rate := formatPercent1 totalErrors logs.length
      total_logs := logs.length }

/- ----------------------------------------------------------------------
shared_logging.py : get_logger / ModuleTagFilter
---------------------------------------------------------------------- -/

/-- The registry state `get_logger` manipulates. `filters` is Python's
`logging` manager: one underlying logger per *name*, carrying the module
tags of the `ModuleTagFilter`s added to it, in addition order. `cache` is
the module's `_loggers` dict keyed by `f"{module}:{name}"`; a cached value
is the handle, and a handle is `logging.getLogger(name)` — identified by
its name alone. -/
structure LoggersState where
  filters : List (String × List String)
  cache : List (String × String)
  deriving DecidableEq, Repr

/-- Fresh process state: no loggers, empty handle cache. -/
def initialLoggersState : LoggersState := { filters := [], cache := [] }

/-- The `_loggers` cache key `f"{module}:{name}"`. -/
def loggerKey (module name : String) : String := module ++ ":" ++ name

/-- `logger.addFilter(ModuleTagFilter(module))` on the underlying logger
named `name`. -/
def addModuleTagFilter (s : LoggersState) (name tag : String) : LoggersState :=
  { s with filters :=
      if s.filters.any (fun p => p.1 == name) then
        s.filters.map (fun p => if p.1 == name then (p.1, p.2 ++ [tag]) else p)
      else s.filters ++ [(name, [tag])] }

/-- `get_logger(name, module)`: return the cached handle for the key if
present; otherwise take `logging.getLogger(name)` (the per-name shared
logger), attach a `ModuleTagFilter(module)`, cache and return it. -/
def get_logger (s : LoggersState) (name module : String) : LoggersState × String :=
  match s.cache.lookup (loggerKey module name) with
  | some h => (s, h)
  | none =>
    let s' := addModuleTagFilter s name module
    ({ s' with cache := s'.cache ++ [(loggerKey module name, name)] }, name)

/-- The `module_tag` a record emitted through handle `h` carries: every
attached `ModuleTagFilter` overwrites `record.module_tag` in order, so the
last one wins; with no filter the JSON sink falls back to `"MAIN"`. -/
def recordModuleTag (s : LoggersState) (h : String) : String :=
  (((s.filters.lookup h).getD []).getLast?).getD "MAIN"

/- ----------------------------------------------------------------------
shared_logging.py : log_exception_context
---------------------------------------------------------------------- -/

/-- The sensitivity patterns of `log_exception_context`. -/
def sensitivePatterns : List String :=
  ["password", "token", "key", "secret", "credential", "auth"]

/-- `any(pattern in k.lower() for pattern in sensitive_patterns)`. -/
def isSensitiveName (k : String) : Bool :=
  sensitivePatterns.any (fun p => pyContains (pyLower k) p)

/-- Truncation of one rendered local:
`repr_val[:max] + "...[truncated]"` past the cap. -/
def truncRepr (v : String) (maxLen : Nat) : String :=
  if v.data.length > maxLen then pyTake v maxLen ++ "...[truncated]" else v

/-- The loop over `frame.f_locals.items()`: skip names starting with
an underscore first, then redact sensitive names, else keep the (truncated)
rendering. Values are modelled as their `repr` strings (a rendering
failure would store `"[repr failed]"`; rendering a string is total here). -/
def sanitizeLocals (maxLen : Nat) : List (String × String) → List (String × String)
  | [] => []
  | (k, v) :: rest =>
    if pyStartsWith k "_" then sanitizeLocals maxLen rest
    else if isSensitiveName k then (k, "[REDACTED]") :: sanitizeLocals maxLen rest
    else (k, truncRepr v maxLen) :: sanitizeLocals maxLen rest

/-- The `context` map `log_exception_context` attaches to the emitted
ERROR record; `locals` is `None` when the sanitized map is empty
(`locals_safe if locals_safe else None`). -/
structure ExcContext where
  exception_type : String
  exception_message : String
  locals : Option (List (String × String))
  traceback : String
  deriving DecidableEq, Repr

/-- `log_exception_context(logger, exc, message, include_locals,
max_local_repr)` — the persisted context. The caller frame's visible
variables arrive as `frameLocals` (name, rendered value). -/
def log_exception_context (excType excMsg tb : String)
    (frameLocals : List (String × String)) (include_locals : Bool)
    (maxLen : Nat) : ExcContext :=
  let ls := if include_locals then sanitizeLocals maxLen frameLocals else []
  { exception_type := excType
    exception_message := excMsg
    locals := if ls.isEmpty then none else some ls
    traceback := tb }

/- ----------------------------------------------------------------------
logs/view_logs.py : view_json_logs (non-follow mode)
---------------------------------------------------------------------- -/

/-- The CLI filter flags. -/
structure ViewFilters where
  level : Option String
  request_id : Option String
  search : Option String
  deriving Repr

/-- `should_include(entry)` in `view_json_logs`. -/
def should_include (f : ViewFilters) (e : Entry) : Bool :=
  (if pyTruthy f.level then pyUpper e.level == pyUpper (f.level.getD "") else true)
    && (if pyTruthy f.request_id then pyContains e.request_id (f.request_id.getD "") else true)
    && (if pyTruthy f.search then pyContains (pyLower e.msg) (pyLower (f.search.getD "")) else true)

/-- `view_json_logs` without `--follow`: parse and filter only
`all_lines[-lines * 2:]`, then print `entries[-lines:]`. Returns the
printed entries in order. -/
def view_json_logs (allLines : List (Option Entry)) (lines : Nat)
    (f : ViewFilters) : List Entry :=
  let entries := (pyTail (lines * 2) allLines).filterMap
    (fun o => match o with
      | none => none
      | some e => if should_include f e then some e else none)
  pyTail lines entries

/- ----------------------------------------------------------------------
Concrete inputs used by witnesses and counterexamples
---------------------------------------------------------------------- -/

/-- A record with the given timestamp, level, request id, module and
message and no span fields. -/
def mkEntry (ts level rid module msg : String) : Entry :=
  { ts := ts, level := level, request_id := rid, module := module
    msg := msg, span_op := none, duration_ms := none, exception := none }

/-- An ERROR record. -/
def demoErrorEntry : Entry := mkEntry "2026-01-01T00:00:02Z" "ERROR" "r1" "BACKEND" "boom"

/-- An INFO record. -/
def demoInfoEntry : Entry := mkEntry "2026-01-01T00:00:01Z" "INFO" "r1" "BACKEND" "ok"

/-- A small timestamp-ordered log file: INFO then two ERRORs. -/
def demoLines : List (Option Entry) :=
  [some (mkEntry "2026-01-01T00:00:01Z" "INFO" "r1" "BACKEND" "ok"),
   some (mkEntry "2026-01-01T00:00:02Z" "ERROR" "r1" "BACKEND" "boom"),
   some (mkEntry "2026-01-01T00:00:03Z" "ERROR" "r2" "BACKEND" "boom again")]

/-- A query asking for at most one ERROR record. -/
def demoQuery : LogQuery :=
  { last := 1, level := some "ERROR", request_id := none, module := none
    search := none, cutoff := none }

/-- A 100-record window holding 12 ERROR records. -/
def demoWindow : List Entry :=
  List.replicate 12 demoErrorEntry ++ List.replicate 88 demoInfoEntry

/-- Six ERROR records in chronological order, t1 oldest. -/
def demoSixErrors : List Entry :=
  [mkEntry "t1" "ERROR" "r" "BACKEND" "e1", mkEntry "t2" "ERROR" "r" "BACKEND" "e2",
   mkEntry "t3" "ERROR" "r" "BACKEND" "e3", mkEntry "t4" "ERROR" "r" "BACKEND" "e4",
   mkEntry "t5" "ERROR" "r" "BACKEND" "e5", mkEntry "t6" "ERROR" "r" "BACKEND" "e6"]

/-- CLI filter selecting ERROR records. -/
def demoViewFilters : ViewFilters :=
  { level := some "ERROR", request_id := none, search := none }

/-- CLI invocation with no filters. -/
def demoNoFilters : ViewFilters :=
  { level := none, request_id := none, search := none }

/- ----------------------------------------------------------------------
Theorems
---------------------------------------------------------------------- -/
/- ----------------------------------------------------------------------
Theorems for C1 and C5
---------------------------------------------------------------------- -/

/-- C1, counterexample: queried with no correlation id bound, the read
operation returns `"no-request-id"`, not the sentinel `"----"` the claim
states. -/
theorem get_request_id_unset_ne_dashes : ¬ (get_request_id none = "----") := by
  decide

/-- C1 (amended): with no correlation id bound, `get_request_id` returns
the string `"no-request-id"` (and, being total, never fails); log records
carry the `"----"` placeholder exactly when the record filter cannot reach
the middleware module, and otherwise carry `get_request_id`'s value. -/
theorem get_request_id_unset_returns_placeholder :
    get_request_id none = "no-request-id"
      ∧ (∀ ctx : Option String, requestIDFilterStamp true ctx = get_request_id ctx)
      ∧ (∀ ctx : Option String, requestIDFilterStamp false ctx = "----") := by
  refine ⟨rfl, fun ctx => rfl, fun ctx => rfl⟩

/-- Auxiliary: after any call, the initialized flag is set. -/
theorem setup_initialized (s : LoggingState) (l : String) (c : Bool) :
    (setup_centralized_logging s l c).initialized = true := by
  unfold setup_centralized_logging
  by_cases h : s.initialized <;> simp [h]

/-- Auxiliary: on an already-initialized state the call returns at once. -/
theorem setup_of_initialized (s : LoggingState) (l : String) (c : Bool)
    (h : s.initialized = true) : setup_centralized_logging s l c = s := by
  unfold setup_centralized_logging
  simp [h]

/-- C5: a second call to the sink-layer initializer, with any arguments,
is a no-op: the state after two calls equals the state after one, so no
handler is duplicated; moreover a first call from the fresh process state
installs pairwise-distinct handler kinds. -/
theorem setup_centralized_logging_idempotent :
    (∀ (s : LoggingState) (l₁ : String) (c₁ : Bool) (l₂ : String) (c₂ : Bool),
      setup_centralized_logging (setup_centralized_logging s l₁ c₁) l₂ c₂
        = setup_centralized_logging s l₁ c₁)
      ∧ (∀ (l : String) (c : Bool),
        ((setup_centralized_logging initialLoggingState l c).handlers.map
            HandlerCfg.kind).Nodup) := by
  constructor
  · intro s l₁ c₁ l₂ c₂
    exact setup_of_initialized _ l₂ c₂ (setup_initialized s l₁ c₁)
  · intro l c
    unfold setup_centralized_logging initialLoggingState
    cases c <;> simp

theorem listIsPrefix_append_self (p t : List Char) : listIsPrefix p (p ++ t) = true := by
  induction p with
  | nil => rfl
  | cons a as ih => simp [listIsPrefix, ih]

@[simp] theorem pyStartsWith_append_self (p x : String) :
    pyStartsWith (p ++ x) p = true := by
  have h : (p ++ x).data = p.data ++ x.data := rfl
  rw [pyStartsWith, h]
  exact listIsPrefix_append_self _ _

@[simp] theorem start_tag_not_error (x : String) :
    pyStartsWith ("SPAN_START:" ++ x) "SPAN_ERROR:" = false := rfl

@[simp] theorem start_tag_not_end (x : String) :
    pyStartsWith ("SPAN_START:" ++ x) "SPAN_END:" = false := rfl

@[simp] theorem error_tag_not_start (x : String) :
    pyStartsWith ("SPAN_ERROR:" ++ x) "SPAN_START:" = false := rfl

@[simp] theorem error_tag_not_end (x : String) :
    pyStartsWith ("SPAN_ERROR:" ++ x) "SPAN_END:" = false := rfl

theorem lookup_pyDictSet_self (m : List (String × String)) (k v : String) :
    (pyDictSet m k v).lookup k = some v := by
  induction m with
  | nil => simp [pyDictSet, List.lookup]
  | cons p rest ih =>
    obtain ⟨k', v'⟩ := p
    by_cases h : k' = k
    · simp [pyDictSet, h, List.lookup]
    · have hne : (k == k') = false := by
        simp [beq_iff_eq]
        exact fun hh => h hh.symm
      simp [pyDictSet, h, List.lookup, hne, ih]

theorem lookup_pyDictSet_ne (m : List (String × String)) (k v k' : String)
    (h : k' ≠ k) : (pyDictSet m k v).lookup k' = m.lookup k' := by
  induction m with
  | nil =>
    have hne : (k' == k) = false := by simp [beq_iff_eq, h]
    simp [pyDictSet, List.lookup, hne]
  | cons p rest ih =>
    obtain ⟨k₀, v₀⟩ := p
    by_cases h0 : k₀ = k
    · subst h0
      have hne : (k' == k₀) = false := by simp [beq_iff_eq, h]
      simp [pyDictSet, List.lookup, hne]
    · simp only [pyDictSet, if_neg h0, List.lookup]
      cases hbe : (k' == k₀) <;> simp [ih]

/-- C2: when the wrapped body raises, the tracer emits exactly one
`SPAN_START` and exactly one `SPAN_ERROR` record and no `SPAN_END` record;
the error record carries the same `span_id` as the start record, the
elapsed `duration_ms`, and a context map that binds `error` to the
exception message and `error_type` to the exception type while agreeing
with the original context on every other key; and the original exception
propagates unchanged. -/
theorem log_span_error_path (op sid : String) (d : Nat)
    (ctx : List (String × String)) (e : PyExc) :
    ((log_span op sid d ctx (Except.error e)).1.countP isSpanStart = 1)
      ∧ ((log_span op sid d ctx (Except.error e)).1.countP isSpanError = 1)
      ∧ ((log_span op sid d ctx (Except.error e)).1.countP isSpanEnd = 0)
      ∧ (∀ r ∈ (log_span op sid d ctx (Except.error e)).1,
          isSpanStart r = true → r.span_id = sid)
      ∧ (∀ r ∈ (log_span op sid d ctx (Except.error e)).1,
          isSpanError r = true →
            r.level = "ERROR" ∧ r.span_id = sid ∧ r.duration_ms = some d ∧
              ∃ m, r.log_context = some m
                ∧ m.lookup "error" = some e.msg
                ∧ m.lookup "error_type" = some e.ty
                ∧ ∀ k, k ≠ "error" → k ≠ "error_type" → m.lookup k = ctx.lookup k)
      ∧ (log_span op sid d ctx (Except.error e)).2 = Except.error e := by
  refine ⟨?_, ?_, ?_, ?_, ?_, ?_⟩
  · simp [log_span, List.countP_cons, isSpanStart, String.append_assoc]
  · simp [log_span, List.countP_cons, isSpanError, String.append_assoc]
  · simp [log_span, List.countP_cons, isSpanEnd, String.append_assoc]
  · intro r hr hstart
    simp only [log_span, List.mem_cons, List.not_mem_nil, or_false] at hr
    rcases hr with h | h <;> subst h
    · rfl
    · simp [isSpanStart, String.append_assoc] at hstart
  · intro r hr herr
    simp only [log_span, List.mem_cons, List.not_mem_nil, or_false] at hr
    rcases hr with h | h <;> subst h
    · simp [isSpanError, String.append_assoc] at herr
    · refine ⟨rfl, rfl, rfl, ?_⟩
      refine ⟨pyDictSet (pyDictSet ctx "error" e.msg) "error_type" e.ty, rfl, ?_, ?_, ?_⟩
      · rw [lookup_pyDictSet_ne _ _ _ _ (by decide)]
        exact lookup_pyDictSet_self _ _ _
      · exact lookup_pyDictSet_self _ _ _
      · intro k hk1 hk2
        rw [lookup_pyDictSet_ne _ _ _ _ hk2, lookup_pyDictSet_ne _ _ _ _ hk1]
  · simp [log_span]

theorem collectLogs_of_full (q : LogQuery) (ls : List (Option Entry))
    (logs : List Entry) (h : logs.length ≥ q.last) :
    collectLogs q ls logs = logs := by
  cases ls with
  | nil => rfl
  | cons l rest => simp [collectLogs, h]

theorem collectLogs_spec (q : LogQuery) :
    ∀ (ls : List (Option Entry)) (logs : List Entry),
      ∃ s, collectLogs q ls logs = logs ++ s
        ∧ List.Sublist s (ls.filterMap id)
        ∧ ∀ e ∈ s, passesFilters q e = true := by
  intro ls
  induction ls with
  | nil =>
    intro logs
    exact ⟨[], by simp [collectLogs], List.nil_sublist _, by simp⟩
  | cons line rest ih =>
    intro logs
    by_cases hfull : logs.length ≥ q.last
    · refine ⟨[], ?_, List.nil_sublist _, by simp⟩
      simp [collectLogs, hfull]
    · cases line with
      | none =>
        obtain ⟨s, h1, h2, h3⟩ := ih logs
        refine ⟨s, ?_, ?_, h3⟩
        · simp [collectLogs, hfull, h1]
        · simpa using h2
      | some e =>
        by_cases hp : passesFilters q e
        · obtain ⟨s, h1, h2, h3⟩ := ih (logs ++ [e])
          refine ⟨e :: s, ?_, ?_, ?_⟩
          · simp [collectLogs, hfull, hp, h1]
          · simpa using h2.cons₂ e
          · intro x hx
            rcases List.mem_cons.mp hx with rfl | hx'
            · exact hp
            · exact h3 x hx'
        · obtain ⟨s, h1, h2, h3⟩ := ih logs
          refine ⟨s, ?_, ?_, h3⟩
          · simp [collectLogs, hfull, hp, h1]
          · simpa using h2.cons e

theorem collectLogs_length (q : LogQuery) :
    ∀ (ls : List (Option Entry)) (logs : List Entry),
      (collectLogs q ls logs).length ≤ max logs.length q.last := by
  intro ls
  induction ls with
  | nil => intro logs; simp [collectLogs]
  | cons line rest ih =>
    intro logs
    by_cases hfull : logs.length ≥ q.last
    · simp [collectLogs, hfull]
    · cases line with
      | none =>
        have h := ih logs
        simpa [collectLogs, hfull] using h
      | some e =>
        by_cases hp : passesFilters q e
        · have h := ih (logs ++ [e])
          have hbound : (collectLogs q rest (logs ++ [e])).length ≤ max logs.length q.last := by
            simp only [List.length_append, List.length_singleton] at h
            omega
          simpa [collectLogs, hfull, hp] using hbound
        · have h := ih logs
          simpa [collectLogs, hfull, hp] using h

/-- C3: on a log file whose well-formed lines are in non-decreasing
timestamp order, the `/api/debug/logs` handler returns at most `last`
records, the returned list is again in non-decreasing timestamp
(oldest-first) order, and every returned record passes all the supplied
filters (their conjunction). -/
theorem get_debug_logs_bounded_sorted_filtered (q : LogQuery)
    (fileLines : List (Option Entry))
    (hsorted : (fileLines.filterMap id).Pairwise (fun a b => pyStrLt b.ts a.ts = false)) :
    (get_debug_logs q fileLines).length ≤ q.last
      ∧ (get_debug_logs q fileLines).Pairwise (fun a b => pyStrLt b.ts a.ts = false)
      ∧ ∀ e ∈ get_debug_logs q fileLines, passesFilters q e = true := by
  obtain ⟨s, h1, h2, h3⟩ := collectLogs_spec q fileLines.reverse []
  rw [List.nil_append] at h1
  have hres : get_debug_logs q fileLines = s.reverse := by
    rw [get_debug_logs, h1]
  have hsub : List.Sublist s.reverse (fileLines.filterMap id) := by
    rw [List.filterMap_reverse] at h2
    simpa using h2.reverse
  refine ⟨?_, ?_, ?_⟩
  · rw [hres, List.length_reverse]
    have hl := collectLogs_length q fileLines.reverse []
    rw [h1] at hl
    simpa using hl
  · rw [hres]
    exact hsorted.sublist hsub
  · intro e he
    rw [hres] at he
    exact h3 e (List.mem_reverse.mp he)

/-- Witness for C3 at a concrete three-line file and a query with
`last = 1` and an ERROR level filter. -/
theorem get_debug_logs_bounded_sorted_filtered_witness :
    ((demoLines.filterMap id).Pairwise (fun a b => pyStrLt b.ts a.ts = false))
      ∧ (get_debug_logs demoQuery demoLines).length ≤ demoQuery.last := by
  have h : (demoLines.filterMap id).Pairwise (fun a b => pyStrLt b.ts a.ts = false) := by
    decide
  exact ⟨h, (get_debug_logs_bounded_sorted_filtered demoQuery demoLines h).1⟩

theorem collectLogs_skip_none (q : LogQuery) :
    ∀ (a b : List (Option Entry)) (logs : List Entry),
      collectLogs q (a ++ none :: b) logs = collectLogs q (a ++ b) logs := by
  intro a
  induction a with
  | nil =>
    intro b logs
    by_cases hfull : logs.length ≥ q.last
    · have h1 : collectLogs q b logs = logs := collectLogs_of_full q b logs hfull
      simp [collectLogs, hfull, h1]
    · simp [collectLogs, hfull]
  | cons line a₂ ih =>
    intro b logs
    by_cases hfull : logs.length ≥ q.last
    · cases line <;> simp [collectLogs, hfull]
    · cases line with
      | none => simp [collectLogs, hfull, ih]
      | some e =>
        by_cases hp : passesFilters q e <;> simp [collectLogs, hfull, hp, ih]

/-- C9: a malformed (unparseable) line anywhere in the file changes
nothing: the handler's result on the file with the malformed line equals
its result on the file without it, so the malformed line alone is skipped,
no error escapes, and every well-formed matching line before and after it
that would be returned is still returned. -/
theorem get_debug_logs_skips_malformed (q : LogQuery)
    (before after : List (Option Entry)) :
    get_debug_logs q (before ++ none :: after)
      = get_debug_logs q (before ++ after) := by
  unfold get_debug_logs
  have h : (before ++ none :: after).reverse
      = after.reverse ++ none :: before.reverse := by
    simp
  have h2 : (before ++ after).reverse = after.reverse ++ before.reverse := by
    simp
  rw [h, h2, collectLogs_skip_none]

/-- C6: over a nonempty window, `generate_summary` maps the error rate to
the health status by the fixed thresholds — CRITICAL iff rate > 10%,
WARNING iff 5% < rate ≤ 10%, DEGRADED iff 0 < rate ≤ 5%, HEALTHY iff
rate = 0 (rate comparisons as exact rationals via cross-multiplication) —
and on a 100-record window with 12 ERROR records it reports error_rate
`"12.0%"` and status CRITICAL. -/
theorem generate_summary_health_thresholds (logs : List Entry) (h : logs ≠ []) :
    ((generate_summary logs).status = "CRITICAL"
        ↔ 10 * countErrorLogs logs > logs.length)
      ∧ ((generate_summary logs).status = "WARNING"
        ↔ 20 * countErrorLogs logs > logs.length
            ∧ 10 * countErrorLogs logs ≤ logs.length)
      ∧ ((generate_summary logs).status = "DEGRADED"
        ↔ 0 < countErrorLogs logs ∧ 20 * countErrorLogs logs ≤ logs.length)
      ∧ ((generate_summary logs).status = "HEALTHY" ↔ countErrorLogs logs = 0)
      ∧ (logs.length = 100 → countErrorLogs logs = 12 →
          (generate_summary logs).error_rate = "12.0%"
            ∧ (generate_summary logs).status = "CRITICAL") := by
  have hne : logs.isEmpty = false := by
    cases logs with
    | nil => exact absurd rfl h
    | cons a l => rfl
  have hpos : 0 < logs.length := by
    cases logs with
    | nil => exact absurd rfl h
    | cons a l => simp
  by_cases h1 : 10 * countErrorLogs logs > logs.length
  · have hs : (generate_summary logs).status = "CRITICAL" := by
      simp [generate_summary, hne, h1]
    have hr : (generate_summary logs).error_rate
        = formatPercent1 (countErrorLogs logs) logs.length := by
      simp [generate_summary, hne]
    refine ⟨by simp [hs, h1], ?_, ?_, ?_, ?_⟩
    · rw [hs]; constructor
      · intro hc; exact absurd hc (by decide)
      · intro ⟨_, hc⟩; omega
    · rw [hs]; constructor
      · intro hc; exact absurd hc (by decide)
      · intro ⟨_, hc⟩; omega
    · rw [hs]; constructor
      · intro hc; exact absurd hc (by decide)
      · intro hc; omega
    · intro hT hE
      refine ⟨?_, hs⟩
      rw [hr, hT, hE]
      decide
  · by_cases h2 : 20 * countErrorLogs logs > logs.length
    · have hs : (generate_summary logs).status = "WARNING" := by
        simp [generate_summary, hne, h1, h2]
      refine ⟨?_, ?_, ?_, ?_, ?_⟩
      · rw [hs]; constructor
        · intro hc; exact absurd hc (by decide)
        · intro hc; omega
      · rw [hs]
        constructor
        · intro _; exact ⟨h2, by omega⟩
        · intro _; rfl
      · rw [hs]; constructor
        · intro hc; exact absurd hc (by decide)
        · intro ⟨_, hc⟩; omega
      · rw [hs]; constructor
        · intro hc; exact absurd hc (by decide)
        · intro hc; omega
      · intro hT hE; rw [hT, hE] at h1; omega
    · by_cases h3 : 0 < countErrorLogs logs
      · have hs : (generate_summary logs).status = "DEGRADED" := by
          simp [generate_summary, hne, h1, h2, h3]
        refine ⟨?_, ?_, ?_, ?_, ?_⟩
        · rw [hs]; constructor
          · intro hc; exact absurd hc (by decide)
          · intro hc; omega
        · rw [hs]; constructor
          · intro hc; exact absurd hc (by decide)
          · intro ⟨hc, _⟩; omega
        · rw [hs]
          constructor
          · intro _; exact ⟨h3, by omega⟩
          · intro _; rfl
        · rw [hs]; constructor
          · intro hc; exact absurd hc (by decide)
          · intro hc; omega
        · intro hT hE; rw [hT, hE] at h1; omega
      · have hs : (generate_summary logs).status = "HEALTHY" := by
          simp [generate_summary, hne, h1, h2, h3]
        refine ⟨?_, ?_, ?_, ?_, ?_⟩
        · rw [hs]; constructor
          · intro hc; exact absurd hc (by decide)
          · intro hc; omega
        · rw [hs]; constructor
          · intro hc; exact absurd hc (by decide)
          · intro ⟨hc, _⟩; omega
        · rw [hs]; constructor
          · intro hc; exact absurd hc (by decide)
          · intro ⟨hc, _⟩; omega
        · rw [hs]
          constructor
          · intro _; omega
          · intro _; rfl
        · intro hT hE; rw [hT, hE] at h1; omega

/-- Witness for C6 at the 100-record window with 12 ERROR records. -/
theorem generate_summary_health_thresholds_witness :
    demoWindow ≠ []
      ∧ (generate_summary demoWindow).error_rate = "12.0%"
      ∧ (generate_summary demoWindow).status = "CRITICAL" := by
  have h : demoWindow ≠ [] := by decide
  have hmain := generate_summary_health_thresholds demoWindow h
  have hT : demoWindow.length = 100 := by decide
  have hE : countErrorLogs demoWindow = 12 := by decide
  exact ⟨h, (hmain.2.2.2.2 hT hE).1, (hmain.2.2.2.2 hT hE).2⟩

/-- C7, divergence at the failing input: on a chronological (oldest-first)
list of six ERROR records, `_generate_log_summary`'s `recent_errors` field
holds the five OLDEST records (`errors[:5]` of the chronological list) and
not the most recent one, contradicting the claim that it holds the up-to-5
most recent ERROR records. -/
theorem generate_log_summary_recent_errors_oldest :
    ((generate_log_summary demoSixErrors).recent_errors.map (fun r => r.ts)
        = ["t1", "t2", "t3", "t4", "t5"])
      ∧ ∀ r ∈ (generate_log_summary demoSixErrors).recent_errors, r.ts ≠ "t6" := by
  decide

/-- C8, divergence at the failing input (the repository's own call
pattern: `get_logger(__name__, module="BACKEND")` in backend/main.py
followed by `get_frontend_logger(__name__)`): the second acquisition with
the same name but a different module tag returns the very same underlying
handle and attaches a second `ModuleTagFilter`, after which records
emitted through the first handle carry `FRONTEND`, not the `BACKEND` tag
supplied when the handle was first acquired. -/
theorem get_logger_retags_shared_handle :
    ((get_logger (get_logger initialLoggersState "backend.main" "BACKEND").1
        "backend.main" "FRONTEND").2
      = (get_logger initialLoggersState "backend.main" "BACKEND").2)
      ∧ recordModuleTag (get_logger initialLoggersState "backend.main" "BACKEND").1
          (get_logger initialLoggersState "backend.main" "BACKEND").2 = "BACKEND"
      ∧ recordModuleTag
          (get_logger (get_logger initialLoggersState "backend.main" "BACKEND").1
            "backend.main" "FRONTEND").1
          (get_logger initialLoggersState "backend.main" "BACKEND").2 = "FRONTEND" := by
  decide

/-- C4, counterexample: the caller-frame variable `_token` contains the
sensitive substring `token`, yet the underscore skip runs first, so the
variable is omitted from the persisted locals map (here the map is empty
and persisted as absent) instead of appearing with value `[REDACTED]`. -/
theorem log_exception_context_omits_private_sensitive :
    isSensitiveName "_token" = true
      ∧ (log_exception_context "ValueError" "bad" "tb"
          [("_token", "s3cret")] true 200).locals = none := by
  decide

theorem sanitizeLocals_mem_redacted (maxLen : Nat) :
    ∀ (fl : List (String × String)) (k v : String), (k, v) ∈ fl →
      pyStartsWith k "_" = false → isSensitiveName k = true →
      (k, "[REDACTED]") ∈ sanitizeLocals maxLen fl := by
  intro fl
  induction fl with
  | nil => intro k v h; cases h
  | cons p rest ih =>
    intro k v hmem hu hs
    obtain ⟨k₀, v₀⟩ := p
    rcases List.mem_cons.mp hmem with heq | hmem'
    · cases heq
      simp [sanitizeLocals, hu, hs]
    · have hr := ih k v hmem' hu hs
      cases h1 : pyStartsWith k₀ "_" with
      | true => simpa [sanitizeLocals, h1] using hr
      | false =>
        cases h2 : isSensitiveName k₀ with
        | true =>
          simp only [sanitizeLocals, h1, h2]
          exact List.mem_cons_of_mem _ hr
        | false =>
          simp only [sanitizeLocals, h1, h2]
          exact List.mem_cons_of_mem _ hr

theorem sanitizeLocals_sensitive_value (maxLen : Nat) :
    ∀ (fl : List (String × String)) (k v' : String),
      (k, v') ∈ sanitizeLocals maxLen fl → isSensitiveName k = true →
      v' = "[REDACTED]" := by
  intro fl
  induction fl with
  | nil => intro k v' h; cases h
  | cons p rest ih =>
    intro k v' hmem hs
    obtain ⟨k₀, v₀⟩ := p
    cases h1 : pyStartsWith k₀ "_" with
    | true =>
      rw [sanitizeLocals, h1] at hmem
      exact ih k v' (by simpa using hmem) hs
    | false =>
      cases h2 : isSensitiveName k₀ with
      | true =>
        simp only [sanitizeLocals, h1, h2, if_false, if_true, Bool.false_eq_true] at hmem
        rcases List.mem_cons.mp hmem with heq | hmem'
        · exact congrArg Prod.snd heq
        · exact ih k v' hmem' hs
      | false =>
        simp only [sanitizeLocals, h1, h2, if_false, if_true, Bool.false_eq_true] at hmem
        rcases List.mem_cons.mp hmem with heq | hmem'
        · have hk : k = k₀ := congrArg Prod.fst heq
          rw [hk] at hs
          rw [hs] at h2
          cases h2
        · exact ih k v' hmem' hs

/-- C4 (amended): with `include_locals` enabled, every caller-frame
variable whose name does NOT begin with the private marker `_` and
contains (case-insensitively) one of the sensitive substrings appears in
the persisted locals map with the fixed value `[REDACTED]` — key kept,
value replaced, never the original value; variables beginning with `_`
are skipped before the sensitivity check and are omitted entirely. -/
theorem log_exception_context_redacts_sensitive (excType excMsg tb : String)
    (fl : List (String × String)) (maxLen : Nat) (k v : String)
    (hmem : (k, v) ∈ fl) (hu : pyStartsWith k "_" = false)
    (hs : isSensitiveName k = true) :
    ∃ m, (log_exception_context excType excMsg tb fl true maxLen).locals = some m
      ∧ (k, "[REDACTED]") ∈ m
      ∧ ∀ v', (k, v') ∈ m → v' = "[REDACTED]" := by
  have h1 := sanitizeLocals_mem_redacted maxLen fl k v hmem hu hs
  refine ⟨sanitizeLocals maxLen fl, ?_, h1, ?_⟩
  · have hne : (sanitizeLocals maxLen fl).isEmpty = false := by
      cases hemp : sanitizeLocals maxLen fl with
      | nil => rw [hemp] at h1; cases h1
      | cons a l => rfl
    simp [log_exception_context, hne]
  · intro v' hv'
    exact sanitizeLocals_sensitive_value maxLen fl k v' hv' hs

/-- Witness for C4 (amended) at a concrete caller frame holding
`order_id` and `auth_token`. -/
theorem log_exception_context_redacts_sensitive_witness :
    ("auth_token", "s3cret")
        ∈ ([("order_id", "123"), ("auth_token", "s3cret")] : List (String × String))
      ∧ ∃ m, (log_exception_context "ValueError" "bad" "tb"
            [("order_id", "123"), ("auth_token", "s3cret")] true 200).locals = some m
          ∧ ("auth_token", "[REDACTED]") ∈ m
          ∧ ∀ v', ("auth_token", v') ∈ m → v' = "[REDACTED]" :=
  ⟨by decide,
    log_exception_context_redacts_sensitive "ValueError" "bad" "tb"
      [("order_id", "123"), ("auth_token", "s3cret")] 200 "auth_token" "s3cret"
      (by decide) (by decide) (by decide)⟩

/-- C10, counterexample: with `lines = 0` the slice `all_lines[-0:]` is
the whole file and `entries[-0:]` is every match, so the tool parses every
line and prints one entry — more than `N = 0` — refuting the claim for
`N = 0`. -/
theorem view_json_logs_zero_prints_all :
    ¬ ((view_json_logs [some demoErrorEntry] 0 demoNoFilters).length ≤ 0) := by
  decide

theorem pyTail_length_le (k : Nat) (hk : 1 ≤ k) (l : List α) :
    (pyTail k l).length ≤ k := by
  unfold pyTail
  have hne : ¬ (k = 0) := by omega
  simp only [hne, if_false, List.length_drop]
  omega

theorem pyTail_idem (k : Nat) (l : List α) :
    pyTail k (pyTail k l) = pyTail k l := by
  by_cases hk : k = 0
  · simp [pyTail, hk]
  · have hlen : (pyTail k l).length ≤ k := pyTail_length_le k (by omega) l
    have h0 : (pyTail k l).length - k = 0 := by omega
    show (if k = 0 then pyTail k l
      else (pyTail k l).drop ((pyTail k l).length - k)) = pyTail k l
    rw [if_neg hk, h0, List.drop_zero]

theorem filterMap_id_replicate (m : Nat) (x : Entry) :
    (List.replicate m (some x)).filterMap id = List.replicate m x := by
  induction m with
  | zero => rfl
  | succ m ih => simp [List.replicate_succ, ih]

theorem filter_length_replicate (p : Entry → Bool) (m : Nat) (x : Entry) :
    ((List.replicate m x).filter p).length = if p x then m else 0 := by
  induction m with
  | zero => simp
  | succ m ih =>
    cases h : p x <;> simp [List.replicate_succ, List.filter_cons, h, ih]

theorem viewFilterMap_info_replicate (m : Nat) :
    (List.replicate m (some demoInfoEntry)).filterMap
      (fun o => match o with
        | none => none
        | some e => if should_include demoViewFilters e then some e else none)
      = [] := by
  have hno : should_include demoViewFilters demoInfoEntry = false := by decide
  induction m with
  | zero => rfl
  | succ m ih => simp [List.replicate_succ, List.filterMap_cons, hno, ih]

/-- C10 (amended, for `lines = N ≥ 1`): the CLI's JSON non-follow mode
depends only on the last `2·N` physical lines, never prints more than `N`
entries, and there are file contents with more than `N` matches on which
it prints no entry at all (all matches lie before the parsed window); for
`N = 0` the Python slice `[-0:]` instead selects the whole file. -/
theorem view_json_logs_window_bounded (l : List (Option Entry)) (n : Nat)
    (f : ViewFilters) (hn : 1 ≤ n) :
    (view_json_logs l n f = view_json_logs (pyTail (n * 2) l) n f)
      ∧ (view_json_logs l n f).length ≤ n
      ∧ ∃ fileContent : List (Option Entry),
          n < ((fileContent.filterMap id).filter (should_include demoViewFilters)).length
            ∧ view_json_logs fileContent n demoViewFilters = [] := by
  refine ⟨?_, ?_, ?_⟩
  · unfold view_json_logs
    rw [pyTail_idem]
  · unfold view_json_logs
    exact pyTail_length_le n hn _
  · refine ⟨List.replicate (n + 1) (some demoErrorEntry)
      ++ List.replicate (n * 2) (some demoInfoEntry), ?_, ?_⟩
    · have hyes : should_include demoViewFilters demoErrorEntry = true := by decide
      have hno : should_include demoViewFilters demoInfoEntry = false := by decide
      rw [List.filterMap_append, filterMap_id_replicate, filterMap_id_replicate,
        List.filter_append, List.length_append,
        filter_length_replicate, filter_length_replicate, hyes, hno]
      simp
    · have hne : ¬ (n * 2 = 0) := by omega
      have hlen : (List.replicate (n + 1) (some demoErrorEntry)
          ++ List.replicate (n * 2) (some demoInfoEntry)).length - n * 2
          = (List.replicate (n + 1) (some demoErrorEntry)).length := by
        simp only [List.length_append, List.length_replicate]
        omega
      have htail : pyTail (n * 2) (List.replicate (n + 1) (some demoErrorEntry)
          ++ List.replicate (n * 2) (some demoInfoEntry))
          = List.replicate (n * 2) (some demoInfoEntry) := by
        simp only [pyTail]
        rw [if_neg hne, hlen, List.drop_left]
      unfold view_json_logs
      rw [htail, viewFilterMap_info_replicate]
      simp [pyTail]

/-- Witness for C10 (amended) at `N = 1` on the three-line demo file. -/
theorem view_json_logs_window_bounded_witness :
    (1 : Nat) ≤ 1 ∧ (view_json_logs demoLines 1 demoViewFilters).length ≤ 1 :=
  ⟨by decide,
    (view_json_logs_window_bounded demoLines 1 demoViewFilters (by decide)).2.1⟩
